import Mathlib

/-!
Verification of the account-preferences form module
(`static/app/data/forms/accountPreferences.tsx` and a second, unnamed copy
of the same module).  The module's logical content is:

* `transformCustomTheme` — reshapes the changed-fields mapping into the
  `{options: …}` submission payload, rewriting the outgoing `customTheme`
  value from the current form state;
* the `customThemeColor` field's `validate` callback — conditional
  hex-color validation;
* the `customThemeColor` field's `visible` callback.

JavaScript values are modelled as follows: a form-state field that may be
`undefined` is an `Option String` (`none` = absent/undefined); string
truthiness (`if (s)`) is "present and non-empty"; the changed-fields
object is an association list with unique-key update semantics; property
lookup on the resulting payload is `getKey`.
-/

set_option autoImplicit false

namespace AccountPrefs

/-- A value stored in the changed-fields mapping (form values are strings
or booleans). -/
inductive FieldValue where
  | str : String → FieldValue
  | boolean : Bool → FieldValue
deriving DecidableEq, Repr

/-- The slice of the form state read by this module: the current values of
the `customTheme` and `customThemeColor` fields, each possibly absent. -/
structure FormState where
  customTheme : Option String
  customThemeColor : Option String
deriving DecidableEq, Repr

/-- The optional `context` argument of the transforms: `{form?, model?}`. -/
structure Context where
  form : Option FormState
  model : Option FormState
deriving DecidableEq, Repr

/-- The submission payload `{options: data}`. -/
structure Payload where
  options : List (String × FieldValue)
deriving DecidableEq, Repr

/-- JavaScript truthiness of an optional string: `undefined` and the empty
string are falsy, every other string is truthy. -/
def truthy : Option String → Bool
  | none => false
  | some s => !(s == "")

/-- Property lookup on a JS object modelled as an association list. -/
def getKey : List (String × FieldValue) → String → Option FieldValue
  | [], _ => none
  | p :: rest, k => if p.1 = k then some p.2 else getKey rest k

/-- Property assignment `obj[k] = v` on a JS object modelled as an
association list: overwrite the existing entry in place, else append. -/
def setKey : List (String × FieldValue) → String → FieldValue → List (String × FieldValue)
  | [], k, v => [(k, v)]
  | p :: rest, k, v => if p.1 = k then (k, v) :: rest else p :: setKey rest k v

/-- Models `const formData = context?.form || \x7b\x7d;`: the form state the
transform reads, defaulting every field to absent. -/
def formOf (context : Option Context) : FormState :=
  (context.bind Context.form).getD { customTheme := none, customThemeColor := none }

/-- Function `transformCustomTheme` from `accountPreferences.tsx` (the three-branch
version with an explicit `'default'` branch). -/
def transformCustomTheme (data : List (String × FieldValue))
    (context : Option Context) : Payload :=
  let formData := formOf context
  let customTheme := formData.customTheme
  let customThemeColor := formData.customThemeColor
  -- Object.fromEntries(Object.entries(data).filter(([key]) => key !== 'customThemeColor'))
  let transformedData := data.filter (fun p => p.1 != "customThemeColor")
  let transformedData :=
    -- if (customTheme === 'custom' && customThemeColor)
    if customTheme == some "custom" && truthy customThemeColor then
      setKey transformedData "customTheme" (FieldValue.str (customThemeColor.getD ""))
    -- else if (customTheme && customTheme !== 'default')
    else if truthy customTheme && customTheme != some "default" then
      setKey transformedData "customTheme" (FieldValue.str (customTheme.getD ""))
    -- else if (customTheme === 'default')
    else if customTheme == some "default" then
      setKey transformedData "customTheme" (FieldValue.str "default")
    else transformedData
  { options := transformedData }

/-- The set of code points removed by JavaScript `String.prototype.trim`
(WhiteSpace and LineTerminator). -/
def jsWhitespace : List Char :=
  ['\t', '\n', '\x0b', '\x0c', '\r', ' ', '\xa0', '\u1680', '\u2000', '\u2001',
   '\u2002', '\u2003', '\u2004', '\u2005', '\u2006', '\u2007', '\u2008', '\u2009',
   '\u200a', '\u2028', '\u2029', '\u202f', '\u205f', '\u3000', '\ufeff']

def isJsWhitespace (c : Char) : Bool := jsWhitespace.contains c

/-- JavaScript `s.trim()`: strip leading and trailing whitespace. -/
def trim (s : String) : String :=
  ⟨((s.data.dropWhile isJsWhitespace).reverse.dropWhile isJsWhitespace).reverse⟩

def isHexDigit (c : Char) : Bool :=
  ('0' ≤ c && c ≤ '9') || ('A' ≤ c && c ≤ 'F') || ('a' ≤ c && c ≤ 'f')

/-- Models `/^#[0-9A-Fa-f]\x7b6\x7d$/.test s`: a `#` followed by exactly six
hexadecimal digits. -/
def hexColorMatch (s : String) : Bool :=
  match s.data with
  | '#' :: rest => rest.length == 6 && rest.all isHexDigit
  | _ => false

/-- The `customThemeColor` field's `validate` callback from
`accountPreferences.tsx`; the argument is the destructured `form`
(possibly absent, hence the optional chaining `form?.`). -/
def validate (form : Option FormState) : List (String × String) :=
  let customTheme := form.bind FormState.customTheme
  let customThemeColor := form.bind FormState.customThemeColor
  if customTheme == some "custom" then
    -- if (!customThemeColor || customThemeColor.trim() === '')
    if !truthy customThemeColor || trim (customThemeColor.getD "") == "" then
      [("customThemeColor", "Please provide a hex color when selecting custom theme")]
    -- if (!/^#[0-9A-Fa-f]\x7b6\x7d$/.test(customThemeColor.trim()))
    else if !hexColorMatch (trim (customThemeColor.getD "")) then
      [("customThemeColor", "Please enter a valid hex color (e.g., #ff5722)")]
    else []
  else []

/-- Models `model.getValue(key)` on the slice of form state this module reads. -/
def FormState.getValue (m : FormState) (key : String) : Option String :=
  if key == "customTheme" then m.customTheme
  else if key == "customThemeColor" then m.customThemeColor
  else none

/-- The `customThemeColor` field's `visible` callback:
`(\x7bmodel\x7d) => model?.getValue('customTheme') === 'custom'`. -/
def visible (model : Option FormState) : Bool :=
  match model with
  | none => false
  | some m => m.getValue "customTheme" == some "custom"

end AccountPrefs

namespace Part000

open AccountPrefs

/-- Function `transformCustomTheme` from the unnamed duplicate source file (the
two-branch version without an explicit `'default'` branch). -/
def transformCustomTheme (data : List (String × FieldValue))
    (context : Option Context) : Payload :=
  let formData := formOf context
  let customTheme := formData.customTheme
  let customThemeColor := formData.customThemeColor
  let transformedData := data.filter (fun p => p.1 != "customThemeColor")
  let transformedData :=
    -- if (customTheme === 'custom' && customThemeColor)
    if customTheme == some "custom" && truthy customThemeColor then
      setKey transformedData "customTheme" (FieldValue.str (customThemeColor.getD ""))
    -- else if (customTheme)
    else if truthy customTheme then
      setKey transformedData "customTheme" (FieldValue.str (customTheme.getD ""))
    else transformedData
  { options := transformedData }

/-- The `customThemeColor` field's `validate` callback from the unnamed
duplicate source file (both checks guarded at top level). -/
def validate (form : Option FormState) : List (String × String) :=
  let customTheme := form.bind FormState.customTheme
  let customThemeColor := form.bind FormState.customThemeColor
  if customTheme == some "custom" &&
      (!truthy customThemeColor || trim (customThemeColor.getD "") == "") then
    [("customThemeColor", "Please provide a hex color when selecting custom theme")]
  else if customTheme == some "custom" && truthy customThemeColor &&
      !hexColorMatch (trim (customThemeColor.getD "")) then
    [("customThemeColor", "Please enter a valid hex color (e.g., #ff5722)")]
  else []

end Part000

namespace AccountPrefs

/-! ### Association-list lemmas -/

theorem getKey_setKey_self (l : List (String × FieldValue)) (k : String) (v : FieldValue) :
    getKey (setKey l k v) k = some v := by
  induction l with
  | nil => simp [setKey, getKey]
  | cons p rest ih =>
    by_cases h : p.1 = k
    · simp [setKey, getKey, h]
    · simp [setKey, getKey, h, ih]

theorem getKey_setKey_other (l : List (String × FieldValue)) (k k' : String)
    (v : FieldValue) (hne : k' ≠ k) :
    getKey (setKey l k v) k' = getKey l k' := by
  have hkk : ¬ k = k' := Ne.symm hne
  induction l with
  | nil => simp [setKey, getKey, hkk]
  | cons p rest ih =>
    by_cases h : p.1 = k
    · simp [setKey, getKey, h, hkk]
    · by_cases h' : p.1 = k'
      · simp [setKey, getKey, h, h', hne]
      · simp [setKey, getKey, h, h', ih]

theorem getKey_filter_other (l : List (String × FieldValue)) (bad k : String)
    (hne : k ≠ bad) :
    getKey (l.filter (fun p => p.1 != bad)) k = getKey l k := by
  induction l with
  | nil => rfl
  | cons p rest ih =>
    by_cases h : p.1 = bad
    · have hbk : ¬ bad = k := Ne.symm hne
      simp [List.filter_cons, h, getKey, hbk, ih]
    · by_cases h' : p.1 = k
      · simp [List.filter_cons, h, getKey, h', hne]
      · simp [List.filter_cons, h, getKey, h', ih]

theorem getKey_filter_self (l : List (String × FieldValue)) (bad : String) :
    getKey (l.filter (fun p => p.1 != bad)) bad = none := by
  induction l with
  | nil => rfl
  | cons p rest ih =>
    by_cases h : p.1 = bad
    · simp [List.filter_cons, h, ih]
    · simp [List.filter_cons, getKey, h, ih]

end AccountPrefs

/-! ### Claim theorems -/

open AccountPrefs

/-- Helper: the transform's output mapping is the filtered input, possibly
with one `customTheme` entry written over it. -/
theorem AccountPrefs.transform_shape (data : List (String × FieldValue))
    (ctx : Option Context) :
    (transformCustomTheme data ctx).options
        = data.filter (fun p => p.1 != "customThemeColor") ∨
    ∃ v, (transformCustomTheme data ctx).options
        = setKey (data.filter (fun p => p.1 != "customThemeColor")) "customTheme" v := by
  unfold transformCustomTheme
  dsimp only
  split_ifs
  · exact Or.inr ⟨_, rfl⟩
  · exact Or.inr ⟨_, rfl⟩
  · exact Or.inr ⟨_, rfl⟩
  · exact Or.inl rfl

/-- C1: for every changed-fields mapping and every form state in which
`customTheme` equals `'custom'` and `customThemeColor` is a non-empty
string, the output payload's `options` mapping has `customTheme` equal to
that `customThemeColor` string, not the literal `'custom'`. -/
theorem AccountPrefs.C1_custom_sends_color (data : List (String × FieldValue))
    (ctx : Option Context) (c : String)
    (hct : (formOf ctx).customTheme = some "custom")
    (hcc : (formOf ctx).customThemeColor = some c) (hne : c ≠ "") :
    getKey (transformCustomTheme data ctx).options "customTheme"
      = some (FieldValue.str c) := by
  unfold transformCustomTheme
  simp [hct, hcc, truthy, hne, getKey_setKey_self]

/-- Witness for C1 at a concrete input. -/
theorem AccountPrefs.C1_witness :
    getKey (transformCustomTheme [("customTheme", FieldValue.str "custom")]
        (some { form := some { customTheme := some "custom",
                               customThemeColor := some "#ff5722" },
                model := none })).options "customTheme"
      = some (FieldValue.str "#ff5722") :=
  AccountPrefs.C1_custom_sends_color _ _ "#ff5722" rfl rfl (by decide)

/-- C2 counterexample: with `customTheme` absent from the form state no
branch of the transform runs, so the output has no `customTheme` entry at
all — not the literal `'default'` the claim requires. -/
theorem AccountPrefs.C2_counterexample :
    getKey (transformCustomTheme [("theme", FieldValue.str "dark")]
        (some { form := some { customTheme := none, customThemeColor := none },
                model := none })).options "customTheme"
      ≠ some (FieldValue.str "default") := by decide

/-- C2 amended: when `customTheme` equals the literal `'default'` the
output's `customTheme` is `'default'`; but when `customTheme` is unset or
empty the transform takes no branch, and the output's `customTheme` entry
is simply the input mapping's entry, unchanged (absent when absent). -/
theorem AccountPrefs.C2_default_normalization (data : List (String × FieldValue))
    (ctx : Option Context) :
    ((formOf ctx).customTheme = some "default" →
      getKey (transformCustomTheme data ctx).options "customTheme"
        = some (FieldValue.str "default")) ∧
    (truthy (formOf ctx).customTheme = false →
      getKey (transformCustomTheme data ctx).options "customTheme"
        = getKey data "customTheme") := by
  constructor
  · intro hct
    unfold transformCustomTheme
    simp [hct, truthy, getKey_setKey_self]
  · intro hct
    unfold transformCustomTheme
    cases hcase : (formOf ctx).customTheme with
    | none =>
      simp [hcase, truthy, getKey_filter_other data "customThemeColor" "customTheme" (by decide)]
    | some s =>
      have hs : s = "" := by
        rw [hcase] at hct
        simpa [truthy] using hct
      subst hs
      simp [hcase, truthy, getKey_filter_other data "customThemeColor" "customTheme" (by decide)]

/-- C3: when the form state's `customTheme` holds a non-empty value other
than `'default'`, and it is not the case that it is `'custom'` alongside a
non-empty `customThemeColor`, the transform passes that value through
unchanged (covers `'custom'` with an empty color and every preset hex). -/
theorem AccountPrefs.C3_passthrough (data : List (String × FieldValue))
    (ctx : Option Context) (s : String)
    (hct : (formOf ctx).customTheme = some s) (hne : s ≠ "")
    (hnd : s ≠ "default")
    (hnc : ¬(s = "custom" ∧ truthy (formOf ctx).customThemeColor = true)) :
    getKey (transformCustomTheme data ctx).options "customTheme"
      = some (FieldValue.str s) := by
  unfold transformCustomTheme
  by_cases hcu : s = "custom"
  · have hcol : truthy (formOf ctx).customThemeColor = false := by
      cases h : truthy (formOf ctx).customThemeColor
      · rfl
      · exact absurd ⟨hcu, h⟩ hnc
    have htc : truthy (some "custom") = true := by decide
    simp [hct, hcu, hcol, htc, getKey_setKey_self]
  · simp [hct, hcu, truthy, hne, hnd, getKey_setKey_self]

/-- Witness for C3 at a concrete input (a preset hex value). -/
theorem AccountPrefs.C3_witness :
    getKey (transformCustomTheme []
        (some { form := some { customTheme := some "#809848",
                               customThemeColor := none },
                model := none })).options "customTheme"
      = some (FieldValue.str "#809848") :=
  AccountPrefs.C3_passthrough _ _ "#809848" rfl (by decide) (by decide) (by decide)

/-- C4: the output mapping never contains a `customThemeColor` key, and
every input key other than `customTheme` and `customThemeColor` appears in
the output with its original value unchanged. -/
theorem AccountPrefs.C4_frame (data : List (String × FieldValue))
    (ctx : Option Context) :
    getKey (transformCustomTheme data ctx).options "customThemeColor" = none ∧
    ∀ k : String, k ≠ "customTheme" → k ≠ "customThemeColor" →
      getKey (transformCustomTheme data ctx).options k = getKey data k := by
  rcases AccountPrefs.transform_shape data ctx with h | ⟨v, h⟩
  · rw [h]
    refine ⟨getKey_filter_self data "customThemeColor", ?_⟩
    intro k _ hk2
    exact getKey_filter_other data "customThemeColor" k hk2
  · rw [h]
    constructor
    · rw [getKey_setKey_other _ _ _ _ (by decide)]
      exact getKey_filter_self data "customThemeColor"
    · intro k hk1 hk2
      rw [getKey_setKey_other _ _ _ _ hk1]
      exact getKey_filter_other data "customThemeColor" k hk2

/-- C5 counterexample: the string `' #AABBCC '` is non-empty, not
whitespace-only, and does not itself match the hex pattern, yet validation
returns no error — the code trims before testing the pattern. -/
theorem AccountPrefs.C5_counterexample :
    hexColorMatch " #AABBCC " = false ∧ trim " #AABBCC " ≠ "" ∧
    validate (some { customTheme := some "custom",
                     customThemeColor := some " #AABBCC " }) = [] :=
  ⟨by decide, by decide, by decide⟩

/-- C5 amended: the invalid-hex error is returned exactly for a
`customThemeColor` whose TRIMMED value is non-empty and fails the pattern
(the code tests the trimmed string); `'#AABBCC'` itself yields no errors. -/
theorem AccountPrefs.C5_trimmed_validation (f : FormState) (c : String)
    (hct : f.customTheme = some "custom") (hcc : f.customThemeColor = some c)
    (htr : trim c ≠ "") (hhex : hexColorMatch (trim c) = false) :
    validate (some f)
        = [("customThemeColor", "Please enter a valid hex color (e.g., #ff5722)")] ∧
    validate (some { customTheme := some "custom",
                     customThemeColor := some "#AABBCC" }) = [] := by
  refine ⟨?_, by decide⟩
  have hcne : c ≠ "" := by
    intro h
    exact htr (by rw [h]; decide)
  unfold validate
  simp [hct, hcc, truthy, hcne, htr, hhex]

/-- Witness for C5 at a concrete input (`'zz00zz'`, the spec's example). -/
theorem AccountPrefs.C5_witness :
    validate (some { customTheme := some "custom", customThemeColor := some "zz00zz" })
        = [("customThemeColor", "Please enter a valid hex color (e.g., #ff5722)")] ∧
    validate (some { customTheme := some "custom",
                     customThemeColor := some "#AABBCC" }) = [] :=
  AccountPrefs.C5_trimmed_validation
    { customTheme := some "custom", customThemeColor := some "zz00zz" } "zz00zz"
    rfl rfl (by decide) (by decide)

/-- C6: with `customTheme == 'custom'` and `customThemeColor` absent,
empty, or whitespace-only, validation returns exactly the single
missing-color error pair. -/
theorem AccountPrefs.C6_missing_color_error (f : FormState)
    (hct : f.customTheme = some "custom")
    (hcc : f.customThemeColor = none ∨
      ∃ c, f.customThemeColor = some c ∧ trim c = "") :
    validate (some f)
      = [("customThemeColor", "Please provide a hex color when selecting custom theme")] := by
  unfold validate
  rcases hcc with h | ⟨c, hc, htr⟩
  · simp [hct, h, truthy]
  · by_cases hce : c = ""
    · subst hce
      simp [hct, hc, truthy]
    · simp [hct, hc, truthy, hce, htr]

/-- Witness for C6 at a concrete input (a whitespace-only color). -/
theorem AccountPrefs.C6_witness :
    validate (some { customTheme := some "custom", customThemeColor := some "   " })
      = [("customThemeColor", "Please provide a hex color when selecting custom theme")] :=
  AccountPrefs.C6_missing_color_error _ rfl (Or.inr ⟨"   ", rfl, by decide⟩)

/-- C7: whenever the form state's `customTheme` is not `'custom'`
(including an absent form or field), both validate implementations return
the empty error sequence, whatever `customThemeColor` holds. -/
theorem AccountPrefs.C7_no_errors_when_not_custom (form : Option FormState)
    (hct : form.bind FormState.customTheme ≠ some "custom") :
    validate form = [] ∧ Part000.validate form = [] := by
  unfold validate Part000.validate
  simp [hct]

/-- Witness for C7 at a concrete input. -/
theorem AccountPrefs.C7_witness :
    validate (some { customTheme := some "default", customThemeColor := some "zz" }) = [] ∧
    Part000.validate (some { customTheme := some "default",
                             customThemeColor := some "zz" }) = [] :=
  AccountPrefs.C7_no_errors_when_not_custom _ (by decide)

/-- C8: the `customThemeColor` field's visibility predicate returns true
exactly when the model is present and its current `customTheme` value is
the string `'custom'`. -/
theorem AccountPrefs.C8_visible_iff (model : Option FormState) :
    visible model = true ↔
      model.bind (fun m => m.getValue "customTheme") = some "custom" := by
  cases model with
  | none => simp [visible]
  | some m => simp [visible]

/-- C9: the two `transformCustomTheme` implementations — the three-branch
version of `accountPreferences.tsx` and the two-branch version of the
unnamed source file — are extensionally equal: they return equal payloads
on every changed-fields mapping and every context. -/
theorem AccountPrefs.C9_transforms_agree (data : List (String × FieldValue))
    (ctx : Option Context) :
    transformCustomTheme data ctx = Part000.transformCustomTheme data ctx := by
  unfold transformCustomTheme Part000.transformCustomTheme
  dsimp only
  cases hct : (formOf ctx).customTheme with
  | none => simp [truthy]
  | some s =>
    by_cases hcu : s = "custom"
    · subst hcu
      cases hcol : truthy (formOf ctx).customThemeColor with
      | true => simp [hcol]
      | false =>
        have h2 : truthy (some "custom") = true := by decide
        have h3 : (some "custom" != some "default") = true := by decide
        simp [hcol, h2, h3]
    · by_cases hse : s = ""
      · subst hse
        have h2 : truthy (some "") = false := by decide
        simp [h2]
      · by_cases hsd : s = "default"
        · subst hsd
          have h1 : ("default" == "custom") = false := by decide
          have h2 : truthy (some "default") = true := by decide
          have h3 : (some "default" != some "default") = false := by decide
          have h4 : (some "default" == some "default") = true := by decide
          simp [h1, h2, h3, h4]
        · have h1 : (s == "custom") = false := by
            simp [hcu]
          have h2 : truthy (some s) = true := by
            simp [truthy, hse]
          have h3 : (some s != some "default") = true := by
            simp [hsd]
          simp [h1, h2, h3]

/-- C10: the transform applies no validation or trimming: with
`customTheme == 'custom'`, any truthy `customThemeColor` string is sent
raw as the outgoing `customTheme` by both implementations — even though
the validate function rejects a whitespace-only string like `' '` and a
non-hex string like `'zz00zz'`, and silently trims `' #AABBCC '`. -/
theorem AccountPrefs.C10_raw_passthrough (data : List (String × FieldValue))
    (ctx : Option Context) (c : String)
    (hct : (formOf ctx).customTheme = some "custom")
    (hcc : (formOf ctx).customThemeColor = some c) (hne : c ≠ "") :
    (getKey (transformCustomTheme data ctx).options "customTheme"
        = some (FieldValue.str c) ∧
     getKey (Part000.transformCustomTheme data ctx).options "customTheme"
        = some (FieldValue.str c)) ∧
    (validate (some { customTheme := some "custom", customThemeColor := some " " })
        = [("customThemeColor", "Please provide a hex color when selecting custom theme")] ∧
     validate (some { customTheme := some "custom", customThemeColor := some "zz00zz" })
        = [("customThemeColor", "Please enter a valid hex color (e.g., #ff5722)")] ∧
     trim " #AABBCC " ≠ " #AABBCC ") := by
  refine ⟨⟨?_, ?_⟩, by decide, by decide, by decide⟩
  · unfold transformCustomTheme
    simp [hct, hcc, truthy, hne, getKey_setKey_self]
  · unfold Part000.transformCustomTheme
    simp [hct, hcc, truthy, hne, getKey_setKey_self]

/-- Witness for C10 at a concrete input (a non-hex color, sent raw). -/
theorem AccountPrefs.C10_witness :
    (getKey (transformCustomTheme []
        (some { form := some { customTheme := some "custom",
                               customThemeColor := some "zz00zz" },
                model := none })).options "customTheme"
        = some (FieldValue.str "zz00zz") ∧
     getKey (Part000.transformCustomTheme []
        (some { form := some { customTheme := some "custom",
                               customThemeColor := some "zz00zz" },
                model := none })).options "customTheme"
        = some (FieldValue.str "zz00zz")) ∧
    (validate (some { customTheme := some "custom", customThemeColor := some " " })
        = [("customThemeColor", "Please provide a hex color when selecting custom theme")] ∧
     validate (some { customTheme := some "custom", customThemeColor := some "zz00zz" })
        = [("customThemeColor", "Please enter a valid hex color (e.g., #ff5722)")] ∧
     trim " #AABBCC " ≠ " #AABBCC ") :=
  AccountPrefs.C10_raw_passthrough [] _ "zz00zz" rfl rfl (by decide)
